import Mathlib

/-!
Verification of `src/problem3/aws_inspector.py` (AWS account inventory
collector) against its natural-language specification.

The Python source is shallowly embedded: every remote call is represented by
its observable outcome (`Res`), stateful closures (the `nonlocal`
accumulators) are represented by explicit state passing, and Python
exception propagation is represented by threading the error constructors of
`Res` through each definition.  Timestamps are represented as the ISO strings
the source converts them to; the conversion itself (`utc_iso`) is not
involved in any claim and is left out.
-/

namespace AwsInspector

/-- Outcome of one remote call or of one Python block: a returned value, one
of the three transient network exceptions the source catches
(`EndpointConnectionError`, `ConnectTimeoutError`, `ReadTimeoutError`), or a
botocore `ClientError` (permission denied, auth failure, and the like). -/
inductive Res (α : Type) where
  | ok (v : α)
  | netErr
  | clientErr
  deriving DecidableEq, Repr

/-- Embedding of `try_once_retry_once` for an operation that may mutate state
enclosing the wrapped closure (Python `nonlocal`): `fn i s` is the i-th
invocation of the callable, started from state `s`.  Only the three transient
network exceptions are caught; a first such failure triggers exactly one
retry, a second one makes the guard return `none` (Python `None`).  Any other
exception propagates out of the guard. -/
def tryOnceRetryOnceSt {α σ : Type} (fn : Nat → σ → Res α × σ) (s0 : σ) :
    Res (Option α) × σ :=
  match fn 0 s0 with
  | (Res.ok v, s1) => (Res.ok (some v), s1)
  | (Res.clientErr, s1) => (Res.clientErr, s1)
  | (Res.netErr, s1) =>
    match fn 1 s1 with
    | (Res.ok v, s2) => (Res.ok (some v), s2)
    | (Res.clientErr, s2) => (Res.clientErr, s2)
    | (Res.netErr, s2) => (Res.ok none, s2)

/-- Embedding of `try_once_retry_once` for a stateless operation; the `Nat`
component counts how many times the operation was invoked. -/
def try_once_retry_once {α : Type} (fn : Nat → Res α) : Res (Option α) × Nat :=
  tryOnceRetryOnceSt (fun i n => (fn i, n + 1)) 0

/-! ## Storage collector (`collect_s3_buckets`) -/

/-- One attempt of the `list_objects_v2` pagination over one bucket: the
sizes of the objects yielded before the attempt ends, and how the attempt
ends (`ok` means the pagination completed; the error constructors mean the
corresponding exception was raised mid-pagination, after those objects had
already been counted). -/
structure Listing where
  objs : List Nat
  outcome : Res Unit

/-- Body of the inner `_run` of `_bucket_stats`: each yielded object bumps
the `nonlocal` accumulators `(count, total)`; on completion the accumulators
are returned, otherwise the raised exception is signalled while the
accumulators keep their updated values (they are NOT rolled back). -/
def listObjectsRun (a : Listing) (st : Nat × Nat) : Res (Nat × Nat) × (Nat × Nat) :=
  match a.outcome with
  | Res.ok _ => (Res.ok (st.1 + a.objs.length, st.2 + a.objs.sum),
                 (st.1 + a.objs.length, st.2 + a.objs.sum))
  | Res.netErr => (Res.netErr, (st.1 + a.objs.length, st.2 + a.objs.sum))
  | Res.clientErr => (Res.clientErr, (st.1 + a.objs.length, st.2 + a.objs.sum))

/-- Embedding of `_bucket_stats`: accumulators start at `(0, 0)`, the inner
`_run` is wrapped in `try_once_retry_once`, and a `None` from the guard is
degraded to `(0, 0)` by the `or (0, 0)` at the return site.  A `ClientError`
raised during the pagination is not caught anywhere here and propagates. -/
def bucket_stats (attempts : Nat → Listing) : Res (Nat × Nat) :=
  match tryOnceRetryOnceSt (fun i => listObjectsRun (attempts i)) (0, 0) with
  | (Res.ok (some r), _) => Res.ok r
  | (Res.ok none, _) => Res.ok (0, 0)
  | (Res.netErr, _) => Res.netErr
  | (Res.clientErr, _) => Res.clientErr

/-- Embedding of `_bucket_region`: `get_bucket_location` returns a location
constraint (`none` models a falsy result, degraded to "us-east-1" by the
`or`); only `ClientError` is caught and degraded to "unknown"; a network
error is not caught here and propagates. -/
def bucket_region (loc : Res (Option String)) : Res String :=
  match loc with
  | Res.ok (some s) => Res.ok s
  | Res.ok none => Res.ok "us-east-1"
  | Res.clientErr => Res.ok "unknown"
  | Res.netErr => Res.netErr

/-- The record built for one bucket (field names are the keys of the dict
literal in `collect_s3_buckets`). -/
structure BucketRecord where
  bucket_name : String
  creation_date : Option String
  region : String
  object_count : Nat
  size_bytes : Nat
  deriving DecidableEq, Repr

/-- The external world seen while collecting one bucket: its entry in the
`list_buckets` response, the `get_bucket_location` outcome, and the behaviour
of each `list_objects_v2` pagination attempt made for it. -/
structure BucketSpec where
  name : String
  creationDate : Option String
  location : Res (Option String)
  listAttempts : Nat → Listing

/-- The per-bucket loop inside the outer `_run` of `collect_s3_buckets`:
for each bucket, `_bucket_stats` runs first, then `_bucket_region` (the dict
literal evaluates in that order); any exception escaping either one aborts
the loop, and the records accumulated so far (being local to `_run`) are
lost. -/
def s3RunGo (bs : List BucketSpec) : Res (List BucketRecord) :=
  match bs with
  | [] => Res.ok []
  | b :: rest =>
    match bucket_stats b.listAttempts with
    | Res.netErr => Res.netErr
    | Res.clientErr => Res.clientErr
    | Res.ok cs =>
      match bucket_region b.location with
      | Res.netErr => Res.netErr
      | Res.clientErr => Res.clientErr
      | Res.ok reg =>
        match s3RunGo rest with
        | Res.ok rs =>
          Res.ok ({ bucket_name := b.name, creation_date := b.creationDate,
                    region := reg, object_count := cs.1, size_bytes := cs.2 } :: rs)
        | Res.netErr => Res.netErr
        | Res.clientErr => Res.clientErr

/-- The outer `_run` of `collect_s3_buckets`: the unpaginated `list_buckets`
call followed by the per-bucket loop. -/
def s3Run (listBuckets : Res (List BucketSpec)) : Res (List BucketRecord) :=
  match listBuckets with
  | Res.ok bs => s3RunGo bs
  | Res.netErr => Res.netErr
  | Res.clientErr => Res.clientErr

/-- Embedding of `collect_s3_buckets`: the outer `_run` is wrapped in
`try_once_retry_once` (attempt `i` sees world `env i`) and a `None` from the
guard is degraded to the empty list by `or out`.  A `ClientError` escaping
`_run` is not caught by the guard and propagates out of the collector. -/
def collect_s3_buckets (env : Nat → Res (List BucketSpec)) : Res (List BucketRecord) :=
  match (try_once_retry_once (fun i => s3Run (env i))).1 with
  | Res.ok (some rs) => Res.ok rs
  | Res.ok none => Res.ok []
  | Res.netErr => Res.netErr
  | Res.clientErr => Res.clientErr

/-! ## Claims about the retry guard and bucket statistics -/

/-- C2: an operation wrapped by `try_once_retry_once` that fails with a
transient-network error on the first invocation and succeeds on the second
yields the success value after exactly two invocations; an operation that
always fails transiently yields the degraded value `none` (which every call
site maps to its empty value via `or`) after exactly two invocations, never
three or more. -/
theorem c2_retry_guard {α : Type} (fn : Nat → Res α) (v : α) :
    (fn 0 = Res.netErr → fn 1 = Res.ok v →
      try_once_retry_once fn = (Res.ok (some v), 2))
    ∧ ((∀ i, fn i = Res.netErr) → try_once_retry_once fn = (Res.ok none, 2)) := by
  constructor
  · intro h0 h1
    simp [try_once_retry_once, tryOnceRetryOnceSt, h0, h1]
  · intro h
    simp [try_once_retry_once, tryOnceRetryOnceSt, h 0, h 1]

/-- Witness for C2 at concrete operations: one that fails transiently then
returns 7, and one that always fails transiently. -/
theorem c2_retry_guard_witness :
    try_once_retry_once (fun i => if i = 0 then Res.netErr else Res.ok 7) =
      (Res.ok (some 7), 2)
    ∧ try_once_retry_once (fun _ => (Res.netErr : Res Nat)) = (Res.ok none, 2) :=
  ⟨(c2_retry_guard (fun i => if i = 0 then Res.netErr else Res.ok 7) 7).1 rfl rfl,
   (c2_retry_guard (fun _ => (Res.netErr : Res Nat)) 7).2 (fun _ => rfl)⟩

/-- C4: when both the original object-listing attempt and its single retry
fail with transient-network errors, `_bucket_stats` returns the degraded
value `(0, 0)` regardless of how many objects each attempt had already
counted — the partial sums are discarded, never reported. -/
theorem c4_bucket_stats_degraded (attempts : Nat → Listing)
    (h0 : (attempts 0).outcome = Res.netErr)
    (h1 : (attempts 1).outcome = Res.netErr) :
    bucket_stats attempts = Res.ok (0, 0) := by
  simp [bucket_stats, tryOnceRetryOnceSt, listObjectsRun, h0, h1]

/-- Witness for C4: both attempts count objects (2 objects of 30 bytes, then
3 objects of 60 bytes) before failing transiently; the reported stats are
still `(0, 0)`. -/
theorem c4_bucket_stats_degraded_witness :
    bucket_stats (fun i => if i = 0 then { objs := [10, 20], outcome := Res.netErr }
                           else { objs := [10, 20, 30], outcome := Res.netErr }) =
      Res.ok (0, 0) :=
  c4_bucket_stats_degraded _ rfl rfl

/-- C5: the accumulators of `_bucket_stats` live in the enclosing scope
(`nonlocal`) and are not reset between the first attempt and the retry, so a
first attempt that counts the objects `objs1` before failing transiently,
followed by a successful retry over the full listing `objs2`, returns the
overcounted stats (length objs1 + length objs2, sum objs1 + sum objs2)
instead of the true stats of `objs2` alone. -/
theorem c5_partial_overcount (attempts : Nat → Listing) (objs1 objs2 : List Nat)
    (h0 : attempts 0 = { objs := objs1, outcome := Res.netErr })
    (h1 : attempts 1 = { objs := objs2, outcome := Res.ok () }) :
    bucket_stats attempts =
      Res.ok (objs1.length + objs2.length, objs1.sum + objs2.sum) := by
  simp [bucket_stats, tryOnceRetryOnceSt, listObjectsRun, h0, h1]

/-- Witness for C5: the first attempt counts one 100-byte object then fails
transiently; the retry succeeds over the full 2-object, 300-byte listing; the
reported stats are the overcount `(3, 400)`, not the true `(2, 300)`. -/
theorem c5_partial_overcount_witness :
    bucket_stats (fun i => if i = 0 then { objs := [100], outcome := Res.netErr }
                           else { objs := [100, 200], outcome := Res.ok () }) =
      Res.ok (3, 400) :=
  c5_partial_overcount _ [100] [100, 200] rfl rfl

/-! ## Claim C1: scope of non-transient errors during bucket enumeration -/

/-- A bucket whose first object-listing attempt succeeds after one 10-byte
object; used as the already-accumulated sibling in the C1 counterexample. -/
def c1Bucket1 : BucketSpec :=
  { name := "alpha", creationDate := some "2024-01-01T00:00:00Z",
    location := Res.ok (some "us-west-2"),
    listAttempts := fun _ => { objs := [10], outcome := Res.ok () } }

/-- A bucket whose object-listing pagination raises a `ClientError`
(permission denied) after one object, on every attempt. -/
def c1Bucket2 : BucketSpec :=
  { name := "beta", creationDate := none,
    location := Res.ok none,
    listAttempts := fun _ => { objs := [5], outcome := Res.clientErr } }

/-- World for the C1 counterexample: `list_buckets` returns the healthy
bucket first and the permission-denied bucket second. -/
def c1Env : Nat → Res (List BucketSpec) := fun _ => Res.ok [c1Bucket1, c1Bucket2]

/-- World for the C1 witness: a single bucket whose listing raises a
`ClientError` after two objects. -/
def c1EnvW : Nat → Res (List BucketSpec) :=
  fun _ => Res.ok [{ name := "gamma", creationDate := none, location := Res.ok none,
                     listAttempts := fun _ => { objs := [1, 2], outcome := Res.clientErr } }]

/-- C1 counterexample: with one healthy bucket already collected, a
`ClientError` raised mid-pagination while listing the second bucket makes the
whole collector signal `ClientError` — the error is NOT caught, and the
already-accumulated record for the first bucket is NOT returned, refuting the
claim that such an error is never propagated upward and that partial results
are preserved. -/
theorem c1_cex : collect_s3_buckets c1Env = Res.clientErr := by decide

/-- C1 (amended): `try_once_retry_once` catches only transient network
errors, so a non-transient `ClientError` raised mid-pagination during one
bucket's object listing propagates out of `_bucket_stats`, aborts the
per-bucket loop, and escapes the whole S3 collector, discarding every record
accumulated before the failure (narrow-scope catching holds only for the
per-bucket region lookup, the per-user enrichment calls and the batched
image lookup, which do degrade in place). -/
theorem c1_nontransient_propagates (env : Nat → Res (List BucketSpec))
    (pre : List BucketSpec) (b : BucketSpec) (rest : List BucketSpec)
    (henv : env 0 = Res.ok (pre ++ b :: rest))
    (hpre : ∀ p ∈ pre, (∃ cs, bucket_stats p.listAttempts = Res.ok cs) ∧
            ∃ r, bucket_region p.location = Res.ok r)
    (hb : bucket_stats b.listAttempts = Res.clientErr) :
    collect_s3_buckets env = Res.clientErr := by
  have hgo : ∀ l : List BucketSpec,
      (∀ p ∈ l, (∃ cs, bucket_stats p.listAttempts = Res.ok cs) ∧
        ∃ r, bucket_region p.location = Res.ok r) →
      s3RunGo (l ++ b :: rest) = Res.clientErr := by
    intro l
    induction l with
    | nil => intro _; simp [s3RunGo, hb]
    | cons p ps ih =>
      intro hl
      obtain ⟨⟨cs, hcs⟩, r, hr⟩ := hl p (by simp)
      have ih2 := ih (fun q hq => hl q (by simp [hq]))
      simp [s3RunGo, hcs, hr, ih2]
  simp [collect_s3_buckets, try_once_retry_once, tryOnceRetryOnceSt, s3Run, henv,
        hgo pre hpre]

/-- Witness for the amended C1 at the concrete single-bucket world. -/
theorem c1_nontransient_propagates_witness : collect_s3_buckets c1EnvW = Res.clientErr :=
  c1_nontransient_propagates c1EnvW []
    { name := "gamma", creationDate := none, location := Res.ok none,
      listAttempts := fun _ => { objs := [1, 2], outcome := Res.clientErr } }
    [] rfl (by simp) rfl

/-! ## Compute collector (`collect_ec2_instances`) -/

/-- Python dict construction from a pair list: a repeated key keeps its first
position but takes the latest value. -/
def pyDict {κ ν : Type} [DecidableEq κ] (pairs : List (κ × ν)) : List (κ × ν) :=
  pairs.foldl
    (fun acc kv =>
      if acc.any (fun p => p.1 = kv.1) then
        acc.map (fun p => if p.1 = kv.1 then (p.1, kv.2) else p)
      else acc ++ [kv])
    []

/-- One instance as it appears inside a reservation of the
`describe_instances` response (each field the corresponding `.get`, so
absent keys are `none`; `launchTime` already converted by `utc_iso`). -/
structure RawInstance where
  instanceId : Option String
  instanceType : Option String
  stateName : Option String
  publicIp : Option String
  privateIp : Option String
  availabilityZone : Option String
  launchTime : Option String
  imageId : Option String
  securityGroups : List (Option String)
  tags : Option (List (Option String × Option String))
  deriving DecidableEq, Repr

/-- The record built for one instance (field names are the keys of the dict
literal in `collect_ec2_instances`). -/
structure InstanceRecord where
  instance_id : Option String
  instance_type : Option String
  state : Option String
  public_ip : Option String
  private_ip : Option String
  availability_zone : Option String
  launch_time : Option String
  ami_id : Option String
  ami_name : Option String
  security_groups : List (Option String)
  tags : List (Option String × Option String)
  deriving DecidableEq, Repr

/-- The dict literal appended to `results` for one instance: `ami_name`
starts as `None` and the tag mapping is empty when `Tags` is absent or
falsy. -/
def mkInstanceRecord (i : RawInstance) : InstanceRecord :=
  { instance_id := i.instanceId, instance_type := i.instanceType,
    state := i.stateName, public_ip := i.publicIp, private_ip := i.privateIp,
    availability_zone := i.availabilityZone, launch_time := i.launchTime,
    ami_id := i.imageId, ami_name := none,
    security_groups := i.securityGroups,
    tags := match i.tags with
            | some ts => if ts = [] then [] else pyDict ts
            | none => [] }

/-- The `ami_ids` set accumulated during the primary pass: `ami_ids.add` is
guarded by `if ami_id:` (so `None` and the empty string are skipped).  The
Python value is a set; it is modelled as a duplicate-free list in first-seen
order, which the claims use only up to membership and cardinality. -/
def collectAmiIds (insts : List RawInstance) : List String :=
  insts.foldl
    (fun acc i =>
      match i.imageId with
      | some a =>
        if a = "" then acc
        else if acc.contains a then acc else acc ++ [a]
      | none => acc)
    []

/-- Embedding of `_ami_names`: an empty id set short-circuits to the empty
mapping with no remote call at all; otherwise exactly one batched
`describe_images` call is made, whose `ClientError` is degraded to the empty
mapping (a network error would propagate).  The second component logs each
call made, with the id list passed to it. -/
def amiNames (describeImages : Res (List (String × Option String)))
    (ids : List String) :
    Res (List (String × Option String)) × List (List String) :=
  if ids.isEmpty then (Res.ok [], [])
  else
    match describeImages with
    | Res.ok imgs => (Res.ok (pyDict imgs), [ids])
    | Res.clientErr => (Res.ok [], [ids])
    | Res.netErr => (Res.netErr, [ids])

/-- Lookup of `r["ami_id"]` in the name mapping; a `None` ami id is never a
key of the mapping (its keys are the ImageId strings). -/
def lookupName (names : List (String × Option String)) (amiId : Option String) :
    Option (Option String) :=
  match amiId with
  | some a => (names.find? (fun p => p.1 == a)).map Prod.snd
  | none => none

/-- The second-pass mutation `r["ami_name"] = names[r["ami_id"]]`, applied
only when the ami id is a key of the mapping. -/
def applyAmiName (names : List (String × Option String)) (r : InstanceRecord) :
    InstanceRecord :=
  match lookupName names r.ami_id with
  | some nm => { r with ami_name := nm }
  | none => r

/-- The external world seen by one attempt of the `_run` of
`collect_ec2_instances`: the pages of the `describe_instances` pagination
(each page a list of reservations, each reservation a list of instances),
the outcome of that pagination, and the outcome of the single batched
`describe_images` call. -/
structure Ec2Env where
  pages : List (List (List RawInstance))
  pageOutcome : Res Unit
  describeImages : Res (List (String × Option String))

/-- Embedding of the `_run` of `collect_ec2_instances`: flatten
reservations, build the records and the unique ami id set, then resolve
names through `_ami_names` and apply them in the second pass.  The log of
`describe_images` calls is threaded as state. -/
def ec2Run (env : Ec2Env) (log : List (List String)) :
    Res (List InstanceRecord) × List (List String) :=
  match env.pageOutcome with
  | Res.netErr => (Res.netErr, log)
  | Res.clientErr => (Res.clientErr, log)
  | Res.ok _ =>
    let insts := env.pages.flatten.flatten
    let results := insts.map mkInstanceRecord
    let ids := collectAmiIds insts
    match amiNames env.describeImages ids with
    | (Res.ok names, calls) => (Res.ok (results.map (applyAmiName names)), log ++ calls)
    | (Res.netErr, calls) => (Res.netErr, log ++ calls)
    | (Res.clientErr, calls) => (Res.clientErr, log ++ calls)

/-- Embedding of `collect_ec2_instances`: the `_run` wrapped in
`try_once_retry_once` with the degradation `or out` to the empty list;
attempt `i` sees world `env i`.  The second component is the total log of
`describe_images` calls across the attempts. -/
def collect_ec2_instances (env : Nat → Ec2Env) :
    Res (List InstanceRecord) × List (List String) :=
  match tryOnceRetryOnceSt (fun i => ec2Run (env i)) [] with
  | (Res.ok (some rs), log) => (Res.ok rs, log)
  | (Res.ok none, log) => (Res.ok [], log)
  | (Res.netErr, log) => (Res.netErr, log)
  | (Res.clientErr, log) => (Res.clientErr, log)

/-- C6: with a successful primary pass listing two instances that share one
ami id, the collector issues exactly one batched `describe_images` call whose
argument is the single deduplicated id; when that call succeeds both records
receive the resolved name, and when it fails with a `ClientError` the
`ami_name` of every record stays `None` while the call log still shows
exactly that one batched call — no per-instance retry. -/
theorem c6_ami_second_pass (env : Nat → Ec2Env) (i1 i2 : RawInstance)
    (a : String) (nm : Option String)
    (ha : a ≠ "")
    (hp : (env 0).pages = [[[i1, i2]]])
    (hout : (env 0).pageOutcome = Res.ok ())
    (h1 : i1.imageId = some a) (h2 : i2.imageId = some a) :
    ((env 0).describeImages = Res.ok [(a, nm)] →
      collect_ec2_instances env =
        (Res.ok [{ mkInstanceRecord i1 with ami_name := nm },
                 { mkInstanceRecord i2 with ami_name := nm }], [[a]]))
    ∧ ((env 0).describeImages = Res.clientErr →
      collect_ec2_instances env =
        (Res.ok [mkInstanceRecord i1, mkInstanceRecord i2], [[a]])) := by
  have hids : collectAmiIds [i1, i2] = [a] := by
    simp [collectAmiIds, h1, h2, ha]
  constructor
  · intro hd
    simp [collect_ec2_instances, tryOnceRetryOnceSt, ec2Run, hp, hout, hd, hids,
          amiNames, pyDict, applyAmiName, lookupName, mkInstanceRecord, h1, h2]
  · intro hd
    simp [collect_ec2_instances, tryOnceRetryOnceSt, ec2Run, hp, hout, hd, hids,
          amiNames, applyAmiName, lookupName, mkInstanceRecord, h1, h2]

/-- A concrete raw instance used by the C6 witness. -/
def c6Inst1 : RawInstance :=
  { instanceId := some "i-001", instanceType := some "t2.micro",
    stateName := some "running", publicIp := some "1.2.3.4",
    privateIp := some "10.0.0.1", availabilityZone := some "us-east-1a",
    launchTime := some "2024-01-01T00:00:00Z", imageId := some "ami-1",
    securityGroups := [some "sg-1"], tags := some [(some "Name", some "web")] }

/-- A second concrete raw instance sharing the same ami id. -/
def c6Inst2 : RawInstance :=
  { instanceId := some "i-002", instanceType := some "t3.large",
    stateName := some "stopped", publicIp := none,
    privateIp := some "10.0.0.2", availabilityZone := some "us-east-1b",
    launchTime := some "2024-02-01T00:00:00Z", imageId := some "ami-1",
    securityGroups := [some "sg-1", some "sg-2"], tags := none }

/-- Witness for C6 at concrete worlds: a successful batched call resolves
both records to the shared name through one call over the single unique id,
and a failing batched call leaves both `ami_name` fields `None` after that
same single call. -/
theorem c6_ami_second_pass_witness :
    collect_ec2_instances
        (fun _ => { pages := [[[c6Inst1, c6Inst2]]], pageOutcome := Res.ok (),
                    describeImages := Res.ok [("ami-1", some "base-image")] }) =
      (Res.ok [{ mkInstanceRecord c6Inst1 with ami_name := some "base-image" },
               { mkInstanceRecord c6Inst2 with ami_name := some "base-image" }],
       [["ami-1"]])
    ∧ collect_ec2_instances
        (fun _ => { pages := [[[c6Inst1, c6Inst2]]], pageOutcome := Res.ok (),
                    describeImages := Res.clientErr }) =
      (Res.ok [mkInstanceRecord c6Inst1, mkInstanceRecord c6Inst2], [["ami-1"]]) :=
  ⟨(c6_ami_second_pass _ c6Inst1 c6Inst2 "ami-1" (some "base-image")
      (by decide) rfl rfl rfl rfl).1 rfl,
   (c6_ami_second_pass _ c6Inst1 c6Inst2 "ami-1" (some "base-image")
      (by decide) rfl rfl rfl rfl).2 rfl⟩

/-! ## Network-security collector (`collect_security_groups`) -/

/-- One permission entry of a security group (`p.get` fields, so absent
keys are `none`; the CIDR list holds each `r.get("CidrIp")`). -/
structure Permission where
  ipProtocol : Option String
  fromPort : Option Int
  toPort : Option Int
  ipRanges : List (Option String)
  deriving DecidableEq, Repr

/-- Rendering of an optional port the way a Python f-string or `str` does
(`None` prints as "None"). -/
def pyStrOptInt : Option Int → String
  | none => "None"
  | some n => toString n

/-- Embedding of `_fmt`: a wildcard protocol designator ("-1" or "all")
gives "all"; otherwise distinct ports give "from-to" and equal ports give
the single port.  A `None` protocol is not a wildcard (Python membership in
the tuple is false). -/
def sg_fmt (p : Permission) : String :=
  if p.ipProtocol = some "-1" ∨ p.ipProtocol = some "all" then "all"
  else if p.fromPort ≠ p.toPort then pyStrOptInt p.fromPort ++ "-" ++ pyStrOptInt p.toPort
  else pyStrOptInt p.fromPort

/-- The protocol field of a rule: the raw designator, with "-1" replaced by
"all". -/
def sg_protocol (p : Permission) : Option String :=
  if p.ipProtocol = some "-1" then some "all" else p.ipProtocol

/-- One formatted rule.  In the source the CIDR string is stored under the
key "source" for inbound rules and "destination" for outbound ones; the
value is built identically, so one field represents both. -/
structure SgRule where
  protocol : Option String
  port_range : String
  cidrs : String
  deriving DecidableEq, Repr

/-- The rule dict built for one permission entry (inbound and outbound use
the same expressions). -/
def mkSgRule (p : Permission) : SgRule :=
  { protocol := sg_protocol p, port_range := sg_fmt p,
    cidrs := String.intercalate ", " (p.ipRanges.map (fun c => c.getD "")) }

/-- One security group of the `describe_security_groups` response. -/
structure SecurityGroupRaw where
  groupId : Option String
  groupName : Option String
  description : Option String
  vpcId : Option String
  ipPermissions : List Permission
  ipPermissionsEgress : List Permission
  deriving DecidableEq, Repr

/-- The record built for one security group. -/
structure SecurityGroupRecord where
  group_id : Option String
  group_name : Option String
  description : Option String
  vpc_id : Option String
  inbound_rules : List SgRule
  outbound_rules : List SgRule
  deriving DecidableEq, Repr

/-- The dict literal appended to `results` for one group. -/
def mkSecurityGroupRecord (g : SecurityGroupRaw) : SecurityGroupRecord :=
  { group_id := g.groupId, group_name := g.groupName,
    description := g.description, vpc_id := g.vpcId,
    inbound_rules := g.ipPermissions.map mkSgRule,
    outbound_rules := g.ipPermissionsEgress.map mkSgRule }

/-- One attempt of the `describe_security_groups` pagination: the groups
yielded and how the attempt ends (an error outcome loses the records built
so far, which are local to `_run`). -/
structure SgAttempt where
  groups : List SecurityGroupRaw
  outcome : Res Unit

/-- The `_run` of `collect_security_groups`. -/
def sgRun (a : SgAttempt) : Res (List SecurityGroupRecord) :=
  match a.outcome with
  | Res.ok _ => Res.ok (a.groups.map mkSecurityGroupRecord)
  | Res.netErr => Res.netErr
  | Res.clientErr => Res.clientErr

/-- Embedding of `collect_security_groups`: the `_run` wrapped in
`try_once_retry_once` with the degradation `or out` to the empty list. -/
def collect_security_groups (env : Nat → SgAttempt) : Res (List SecurityGroupRecord) :=
  match (try_once_retry_once (fun i => sgRun (env i))).1 with
  | Res.ok (some rs) => Res.ok rs
  | Res.ok none => Res.ok []
  | Res.netErr => Res.netErr
  | Res.clientErr => Res.clientErr

/-- C9: for every permission entry, a wildcard protocol designator ("-1" or
"all") yields a rule with protocol literally "all" and port_range "all"; a
non-wildcard protocol with both ports present yields the single port as a
string when the ports are equal and "from-to" when they differ. -/
theorem c9_rule_formatting (p : Permission) :
    ((p.ipProtocol = some "-1" ∨ p.ipProtocol = some "all") →
      (mkSgRule p).protocol = some "all" ∧ (mkSgRule p).port_range = "all")
    ∧ (∀ proto a b, p.ipProtocol = some proto → proto ≠ "-1" → proto ≠ "all" →
        p.fromPort = some a → p.toPort = some b →
        (mkSgRule p).port_range =
          if a = b then toString a else toString a ++ "-" ++ toString b) := by
  constructor
  · intro h
    rcases h with h | h <;>
      simp [mkSgRule, sg_protocol, sg_fmt, h]
  · intro proto a b hp hne1 hne2 hf ht
    by_cases hab : a = b
    · subst hab
      simp [mkSgRule, sg_fmt, hp, hne1, hne2, hf, ht, pyStrOptInt]
    · have : p.fromPort ≠ p.toPort := by
        rw [hf, ht]; simp [hab]
      simp [mkSgRule, sg_fmt, hp, hne1, hne2, hf, ht, pyStrOptInt, hab, this]

/-- Witness for C9 at the concrete entries of the specification:
protocol "-1" gives ("all", "all"); tcp 80..80 gives "80";
tcp 1000..2000 gives "1000-2000". -/
theorem c9_rule_formatting_witness :
    (mkSgRule { ipProtocol := some "-1", fromPort := none, toPort := none,
                ipRanges := [some "0.0.0.0/0"] }).protocol = some "all"
    ∧ (mkSgRule { ipProtocol := some "-1", fromPort := none, toPort := none,
                  ipRanges := [some "0.0.0.0/0"] }).port_range = "all"
    ∧ (mkSgRule { ipProtocol := some "tcp", fromPort := some 80, toPort := some 80,
                  ipRanges := [] }).port_range = "80"
    ∧ (mkSgRule { ipProtocol := some "tcp", fromPort := some 1000, toPort := some 2000,
                  ipRanges := [] }).port_range = "1000-2000" := by
  refine ⟨((c9_rule_formatting _).1 (Or.inl rfl)).1,
          ((c9_rule_formatting _).1 (Or.inl rfl)).2, ?_, ?_⟩
  · have h := (c9_rule_formatting
      { ipProtocol := some "tcp", fromPort := some 80, toPort := some 80,
        ipRanges := [] }).2 "tcp" 80 80 rfl (by decide) (by decide) rfl rfl
    simpa using h
  · have h := (c9_rule_formatting
      { ipProtocol := some "tcp", fromPort := some 1000, toPort := some 2000,
        ipRanges := [] }).2 "tcp" 1000 2000 rfl (by decide) (by decide) rfl rfl
    simpa using h

/-! ## Identity collector (`get_account_identity`) and IAM users -/

/-- The record built for one IAM user by `collect_iam_users` (policy entries
are (policy_name, policy_arn) pairs). -/
structure IamRecord where
  username : Option String
  user_id : Option String
  arn : Option String
  create_date : Option String
  last_activity : Option String
  attached_policies : List (Option String × Option String)
  deriving DecidableEq, Repr

/-- The external world seen by `collect_iam_users`: the outcome of
constructing the `list_users` paginator (whose `ClientError` is returned as
the empty list), and the value or exception produced by attempt `i` of its
`_run` (the per-user enrichment interior of `_run` is abstracted into that
outcome; the claims touch only the degradation shell around it). -/
structure IamEnv where
  paginatorCtor : Res Unit
  attempts : Nat → Res (List IamRecord)

/-- Embedding of `collect_iam_users`: paginator construction guarded by the
`except ClientError: return out`; the `_run` wrapped in
`try_once_retry_once` with the degradation `or out` to the empty list. -/
def collect_iam_users (env : IamEnv) : Res (List IamRecord) :=
  match env.paginatorCtor with
  | Res.clientErr => Res.ok []
  | Res.netErr => Res.netErr
  | Res.ok _ =>
    match (try_once_retry_once env.attempts).1 with
    | Res.ok (some rs) => Res.ok rs
    | Res.ok none => Res.ok []
    | Res.netErr => Res.netErr
    | Res.clientErr => Res.clientErr

/-- The `get_caller_identity` response body (`ident.get` fields). -/
structure CallerIdentity where
  account : Option String
  arn : Option String
  deriving DecidableEq, Repr

/-- The observable outcome of `get_account_identity`: a returned identity
pair, the `sys.exit(1)` taken after printing the authentication error, or a
network exception propagating uncaught (nothing in the function or in `main`
catches it). -/
inductive IdentityResult where
  | ident (account arn : String)
  | exit1
  | raisedNet
  deriving DecidableEq, Repr

/-- Embedding of `get_account_identity`: a single `get_caller_identity`
call with no retry guard around it; only `ClientError` is caught (printing
an error and exiting with status 1); missing response fields default to the
empty string via `.get(..., "")`.  The `Nat` component counts how many
times the remote call was invoked. -/
def get_account_identity (sts : Res CallerIdentity) : IdentityResult × Nat :=
  match sts with
  | Res.ok r => (IdentityResult.ident (r.account.getD "") (r.arn.getD ""), 1)
  | Res.clientErr => (IdentityResult.exit1, 1)
  | Res.netErr => (IdentityResult.raisedNet, 1)

/-- C3 counterexample: on a transient-network error the identity lookup is
invoked exactly once — there is no retry before the failure escapes — and the
outcome is an uncaught propagating exception, not the guarded fatal path the
claim describes. -/
theorem c3_cex : get_account_identity Res.netErr = (IdentityResult.raisedNet, 1) := rfl

/-- C3 (amended): `get_account_identity` issues a single call with no retry
guard: a `ClientError` (authentication failure) is fatal with an error
message and exit status 1; a transient-network error propagates uncaught
after exactly one invocation; a response with missing fields yields
empty-string identity values and does not terminate the run. -/
theorem c3_identity_behaviour (sts : Res CallerIdentity) :
    (sts = Res.clientErr → get_account_identity sts = (IdentityResult.exit1, 1))
    ∧ (sts = Res.netErr → get_account_identity sts = (IdentityResult.raisedNet, 1))
    ∧ (∀ a r, sts = Res.ok { account := a, arn := r } →
        get_account_identity sts =
          (IdentityResult.ident (a.getD "") (r.getD ""), 1)) := by
  refine ⟨fun h => ?_, fun h => ?_, fun a r h => ?_⟩ <;>
    simp [get_account_identity, h]

/-- Witness for the amended C3 at concrete inputs: an authentication
failure exits with status 1 after one invocation, and a malformed (empty)
response returns empty identity fields after one invocation. -/
theorem c3_identity_behaviour_witness :
    get_account_identity Res.clientErr = (IdentityResult.exit1, 1)
    ∧ get_account_identity (Res.ok { account := none, arn := none }) =
        (IdentityResult.ident "" "", 1) :=
  ⟨(c3_identity_behaviour Res.clientErr).1 rfl,
   (c3_identity_behaviour (Res.ok { account := none, arn := none })).2.2 none none rfl⟩

/-! ## Orchestrator (`validate_region_or_exit`, `main`, exit codes) -/

/-- Embedding of `validate_region_or_exit`: a truthy explicit region is
checked against the available-region set (exit status 2 when absent); a
falsy or missing region argument falls back to the session region `or`
"unknown" (`none` models a falsy session region). -/
def validate_region_or_exit (availableRegions : List String)
    (sessionRegion : Option String) (region : Option String) : Except Nat String :=
  match region with
  | some r =>
    if r = "" then Except.ok (sessionRegion.getD "unknown")
    else if availableRegions.contains r then Except.ok r
    else Except.error 2
  | none => Except.ok (sessionRegion.getD "unknown")

/-- The account_info dict of the payload. -/
structure AccountInfo where
  account_id : String
  user_arn : String
  region : String
  scan_timestamp : String
  deriving DecidableEq, Repr

/-- The resources dict of the payload. -/
structure Resources where
  iam_users : List IamRecord
  ec2_instances : List InstanceRecord
  s3_buckets : List BucketRecord
  security_groups : List SecurityGroupRecord
  deriving DecidableEq, Repr

/-- The summary dict of the payload (its last key is literally
"security_groups" in the source). -/
structure Summary where
  total_users : Nat
  running_instances : Nat
  total_buckets : Nat
  security_groups : Nat
  deriving DecidableEq, Repr

/-- The full report payload assembled by `main`. -/
structure Payload where
  account_info : AccountInfo
  resources : Resources
  summary : Summary
  deriving DecidableEq, Repr

/-- Embedding of the payload literal in `main`: the four collector outputs
are stored as-is under resources, and every summary counter is computed
from the corresponding final list (`running_instances` counts the records
whose state equals "running"). -/
def buildPayload (account_id user_arn region ts : String)
    (iam_users : List IamRecord) (ec2_instances : List InstanceRecord)
    (s3_buckets : List BucketRecord) (sec_groups : List SecurityGroupRecord) :
    Payload :=
  { account_info := { account_id := account_id, user_arn := user_arn,
                      region := region, scan_timestamp := ts },
    resources := { iam_users := iam_users, ec2_instances := ec2_instances,
                   s3_buckets := s3_buckets, security_groups := sec_groups },
    summary := { total_users := iam_users.length,
                 running_instances :=
                   (ec2_instances.filter (fun i => i.state == some "running")).length,
                 total_buckets := s3_buckets.length,
                 security_groups := sec_groups.length } }

/-- The external world seen by one whole run of `main`. -/
structure MainEnv where
  regionArg : Option String
  availableRegions : List String
  sessionRegion : Option String
  sts : Res CallerIdentity
  iamEnv : IamEnv
  ec2Env : Nat → Ec2Env
  s3Env : Nat → Res (List BucketSpec)
  sgEnv : Nat → SgAttempt
  timestamp : String

/-- How one call of `main` ends: a completed payload, an explicit
`sys.exit` with the given status, or an exception propagating out of
`main`. -/
inductive MainOutcome where
  | completed (p : Payload)
  | exited (code : Nat)
  | raised
  deriving DecidableEq, Repr

/-- Embedding of `main`: region validation first, then the identity lookup,
then the four collectors, then the payload literal.  The `Bool` component
records whether `get_caller_identity` was ever invoked (false exactly when
the region check exits first).  Any exception escaping the identity lookup
or a collector propagates out of `main`. -/
def main_run (env : MainEnv) : MainOutcome × Bool :=
  match validate_region_or_exit env.availableRegions env.sessionRegion env.regionArg with
  | Except.error n => (MainOutcome.exited n, false)
  | Except.ok region =>
    match get_account_identity env.sts with
    | (IdentityResult.exit1, _) => (MainOutcome.exited 1, true)
    | (IdentityResult.raisedNet, _) => (MainOutcome.raised, true)
    | (IdentityResult.ident accountId userArn, _) =>
      match collect_iam_users env.iamEnv, (collect_ec2_instances env.ec2Env).1,
            collect_s3_buckets env.s3Env, collect_security_groups env.sgEnv with
      | Res.ok us, Res.ok insts, Res.ok bs, Res.ok gs =>
        (MainOutcome.completed
          (buildPayload accountId userArn region env.timestamp us insts bs gs), true)
      | _, _, _, _ => (MainOutcome.raised, true)

/-- The `if __name__ == "__main__"` guard together with the interpreter's
exit-status convention: `KeyboardInterrupt` is caught and mapped to
`sys.exit(130)`; a normal return exits 0; `sys.exit(n)` exits n; any other
uncaught exception makes the interpreter terminate with status 1 (after a
traceback). -/
def process_exit_code (interrupted : Bool) (env : MainEnv) : Nat :=
  if interrupted then 130
  else
    match (main_run env).1 with
    | MainOutcome.completed _ => 0
    | MainOutcome.exited n => n
    | MainOutcome.raised => 1

/-! ## Claim C8: report shape and summary counters -/

/-- C8: in every assembled payload the four resource lists are stored
exactly as produced (as lists, never absent), every summary counter is
recomputed purely from the corresponding final list, and a fully degraded
collector (both guard attempts failing transiently) contributes the empty
list rather than anything null. -/
theorem c8_report_invariants (account_id user_arn region ts : String)
    (usL : List IamRecord) (exL : List InstanceRecord)
    (bsL : List BucketRecord) (gsL : List SecurityGroupRecord) :
    (buildPayload account_id user_arn region ts usL exL bsL gsL).resources =
      { iam_users := usL, ec2_instances := exL,
        s3_buckets := bsL, security_groups := gsL }
    ∧ (buildPayload account_id user_arn region ts usL exL bsL gsL).summary.total_users
        = usL.length
    ∧ (buildPayload account_id user_arn region ts usL exL bsL gsL).summary.running_instances
        = (exL.filter (fun i => i.state == some "running")).length
    ∧ (buildPayload account_id user_arn region ts usL exL bsL gsL).summary.total_buckets
        = bsL.length
    ∧ (buildPayload account_id user_arn region ts usL exL bsL gsL).summary.security_groups
        = gsL.length
    ∧ (∀ env : IamEnv, env.paginatorCtor = Res.ok () →
        (∀ i, env.attempts i = Res.netErr) → collect_iam_users env = Res.ok [])
    ∧ (∀ env : Nat → Ec2Env, (∀ i, (env i).pageOutcome = Res.netErr) →
        (collect_ec2_instances env).1 = Res.ok [])
    ∧ (∀ env : Nat → Res (List BucketSpec), (∀ i, env i = Res.netErr) →
        collect_s3_buckets env = Res.ok [])
    ∧ (∀ env : Nat → SgAttempt, (∀ i, (env i).outcome = Res.netErr) →
        collect_security_groups env = Res.ok []) := by
  refine ⟨rfl, rfl, rfl, rfl, rfl, ?_, ?_, ?_, ?_⟩
  · intro env hctor hatt
    simp [collect_iam_users, hctor, try_once_retry_once, tryOnceRetryOnceSt,
          hatt 0, hatt 1]
  · intro env hatt
    simp [collect_ec2_instances, tryOnceRetryOnceSt, ec2Run, hatt 0, hatt 1]
  · intro env hatt
    simp [collect_s3_buckets, try_once_retry_once, tryOnceRetryOnceSt, s3Run,
          hatt 0, hatt 1]
  · intro env hatt
    simp [collect_security_groups, try_once_retry_once, tryOnceRetryOnceSt, sgRun,
          hatt 0, hatt 1]

/-- A running instance record used by the C8 witness. -/
def c8Run1 : InstanceRecord :=
  { instance_id := some "i-101", instance_type := some "t2.micro",
    state := some "running", public_ip := none, private_ip := some "10.0.0.5",
    availability_zone := some "us-east-1a", launch_time := some "2024-03-01T00:00:00Z",
    ami_id := some "ami-9", ami_name := none, security_groups := [some "sg-9"],
    tags := [] }

/-- A stopped instance record used by the C8 witness. -/
def c8Stop : InstanceRecord :=
  { c8Run1 with instance_id := some "i-102", state := some "stopped" }

/-- A second running instance record used by the C8 witness. -/
def c8Run2 : InstanceRecord :=
  { c8Run1 with instance_id := some "i-103" }

/-- A doubly transiently failing compute world for the C8 witness. -/
def c8Ec2Deg : Nat → Ec2Env :=
  fun _ => { pages := [], pageOutcome := Res.netErr, describeImages := Res.ok [] }

/-- Witness for C8: with states [running, stopped, running] the counter is
2, and each collector under a doubly transient failure yields the empty
list. -/
theorem c8_report_invariants_witness :
    (buildPayload "123456789012" "arn:aws:iam::123456789012:user/test" "us-east-1"
        "2024-01-01T00:00:00Z" [] [c8Run1, c8Stop, c8Run2] [] []).summary.running_instances = 2
    ∧ collect_iam_users { paginatorCtor := Res.ok (), attempts := fun _ => Res.netErr }
        = Res.ok []
    ∧ (collect_ec2_instances c8Ec2Deg).1 = Res.ok []
    ∧ collect_s3_buckets (fun _ => Res.netErr) = Res.ok []
    ∧ collect_security_groups (fun _ => { groups := [], outcome := Res.netErr })
        = Res.ok [] := by
  have h := c8_report_invariants "123456789012" "arn:aws:iam::123456789012:user/test"
    "us-east-1" "2024-01-01T00:00:00Z" [] [c8Run1, c8Stop, c8Run2] [] []
  refine ⟨?_, h.2.2.2.2.2.1 _ rfl (fun _ => rfl), h.2.2.2.2.2.2.1 _ (fun _ => rfl),
          h.2.2.2.2.2.2.2.1 _ (fun _ => rfl), h.2.2.2.2.2.2.2.2 _ (fun _ => rfl)⟩
  rw [h.2.2.1]
  decide

/-! ## Claim C10: process exit codes -/

/-- C10: the process exits 0 on a fully successful run, 1 when the identity
lookup fails with a `ClientError`, 2 when a truthy explicit region argument
is outside the available-region set (in which case the identity lookup is
never invoked), and 130 on a user interrupt. -/
theorem c10_exit_codes (env : MainEnv) :
    (∀ r, env.regionArg = some r → r ≠ "" → r ∉ env.availableRegions →
      process_exit_code false env = 2 ∧ (main_run env).2 = false)
    ∧ (∀ reg, validate_region_or_exit env.availableRegions env.sessionRegion
          env.regionArg = Except.ok reg →
        env.sts = Res.clientErr → process_exit_code false env = 1)
    ∧ process_exit_code true env = 130
    ∧ (∀ reg a r usL exLL bsL gsL,
        validate_region_or_exit env.availableRegions env.sessionRegion
          env.regionArg = Except.ok reg →
        env.sts = Res.ok { account := a, arn := r } →
        collect_iam_users env.iamEnv = Res.ok usL →
        (collect_ec2_instances env.ec2Env).1 = Res.ok exLL →
        collect_s3_buckets env.s3Env = Res.ok bsL →
        collect_security_groups env.sgEnv = Res.ok gsL →
        process_exit_code false env = 0) := by
  refine ⟨?_, ?_, rfl, ?_⟩
  · intro r hr hne hcon
    have hv : validate_region_or_exit env.availableRegions env.sessionRegion
        env.regionArg = Except.error 2 := by
      simp [validate_region_or_exit, hr, hne, hcon]
    constructor
    · simp [process_exit_code, main_run, hv]
    · simp [main_run, hv]
  · intro reg hv hsts
    simp [process_exit_code, main_run, hv, get_account_identity, hsts]
  · intro reg a r usL exLL bsL gsL hv hsts hus hex hbs hgs
    simp [process_exit_code, main_run, hv, get_account_identity, hsts,
          hus, hex, hbs, hgs]

/-- A fully healthy world for the C10 witness. -/
def c10EnvOk : MainEnv :=
  { regionArg := some "us-east-1", availableRegions := ["us-east-1", "us-west-2"],
    sessionRegion := none,
    sts := Res.ok { account := some "123456789012",
                    arn := some "arn:aws:iam::123456789012:user/test" },
    iamEnv := { paginatorCtor := Res.ok (), attempts := fun _ => Res.ok [] },
    ec2Env := fun _ => { pages := [], pageOutcome := Res.ok (),
                         describeImages := Res.ok [] },
    s3Env := fun _ => Res.ok [],
    sgEnv := fun _ => { groups := [], outcome := Res.ok () },
    timestamp := "2024-01-01T00:00:00Z" }

/-- The healthy world with an explicit region outside the available set. -/
def c10EnvBadRegion : MainEnv := { c10EnvOk with regionArg := some "mars-north-1" }

/-- The healthy world with an identity lookup failing on authentication. -/
def c10EnvAuthFail : MainEnv := { c10EnvOk with sts := Res.clientErr }

/-- Witness for C10 at the three concrete worlds plus the interrupt path. -/
theorem c10_exit_codes_witness :
    process_exit_code false c10EnvOk = 0
    ∧ process_exit_code false c10EnvAuthFail = 1
    ∧ (process_exit_code false c10EnvBadRegion = 2
       ∧ (main_run c10EnvBadRegion).2 = false)
    ∧ process_exit_code true c10EnvOk = 130 :=
  ⟨(c10_exit_codes c10EnvOk).2.2.2 "us-east-1" (some "123456789012")
      (some "arn:aws:iam::123456789012:user/test") [] [] [] []
      rfl rfl rfl rfl rfl rfl,
   (c10_exit_codes c10EnvAuthFail).2.1 "us-east-1" rfl rfl,
   (c10_exit_codes c10EnvBadRegion).1 "mars-north-1" rfl (by decide) (by decide),
   (c10_exit_codes c10EnvOk).2.2.1⟩

/-! ## Claim C7: serialized field names -/

/-- A JSON value, as far as `json.dumps` sees the payload. -/
inductive JVal where
  | str (s : String)
  | num (n : Nat)
  | null
  | arr (xs : List JVal)
  | obj (fields : List (String × JVal))

/-- Serialization of an optional string (`None` becomes JSON null). -/
def jOptStr : Option String → JVal
  | none => JVal.null
  | some s => JVal.str s

/-- The JSON object serialized for one bucket record: keys and order are
those of the dict literal in `collect_s3_buckets`. -/
def bucketRecordToObj (r : BucketRecord) : List (String × JVal) :=
  [("bucket_name", JVal.str r.bucket_name),
   ("creation_date", jOptStr r.creation_date),
   ("region", JVal.str r.region),
   ("object_count", JVal.num r.object_count),
   ("size_bytes", JVal.num r.size_bytes)]

/-- The JSON object serialized for one instance record: keys and order are
those of the dict literal in `collect_ec2_instances` (a `None` tag key is
rendered by `json.dumps` as the string "null"). -/
def instanceRecordToObj (r : InstanceRecord) : List (String × JVal) :=
  [("instance_id", jOptStr r.instance_id),
   ("instance_type", jOptStr r.instance_type),
   ("state", jOptStr r.state),
   ("public_ip", jOptStr r.public_ip),
   ("private_ip", jOptStr r.private_ip),
   ("availability_zone", jOptStr r.availability_zone),
   ("launch_time", jOptStr r.launch_time),
   ("ami_id", jOptStr r.ami_id),
   ("ami_name", jOptStr r.ami_name),
   ("security_groups", JVal.arr (r.security_groups.map jOptStr)),
   ("tags", JVal.obj (r.tags.map (fun kv => (kv.1.getD "null", jOptStr kv.2))))]

/-- The world for the C7 counterexample: one bucket with two objects
totalling 300 bytes, collected without any failure. -/
def c7Env : Nat → Res (List BucketSpec) :=
  fun _ => Res.ok [{ name := "mybucket", creationDate := some "2024-01-01T00:00:00Z",
                     location := Res.ok none,
                     listAttempts := fun _ => { objs := [100, 200], outcome := Res.ok () } }]

/-- The bucket record the collector produces in the C7 counterexample
world. -/
def c7Rec : BucketRecord :=
  { bucket_name := "mybucket", creation_date := some "2024-01-01T00:00:00Z",
    region := "us-east-1", object_count := 2, size_bytes := 300 }

/-- C7 counterexample: the record actually produced by the S3 collector for
a concrete bucket serializes without any "total_size_bytes" key, and an
instance record serializes without any "security_group_ids" key — the keys
used are "size_bytes" and "security_groups". -/
theorem c7_cex :
    collect_s3_buckets c7Env = Res.ok [c7Rec]
    ∧ ((bucketRecordToObj c7Rec).map Prod.fst).contains "total_size_bytes" = false
    ∧ ((instanceRecordToObj c8Run1).map Prod.fst).contains "security_group_ids" = false := by
  refine ⟨by decide, by decide, by decide⟩

/-- C7 (amended): every serialized bucket record carries exactly the keys
bucket_name, creation_date, region, object_count and size_bytes (not
total_size_bytes), and every serialized instance record carries exactly the
keys instance_id through tags with the ordered security-group id list stored
under security_groups (not security_group_ids). -/
theorem c7_serialized_keys (r : BucketRecord) (i : InstanceRecord) :
    (bucketRecordToObj r).map Prod.fst =
      ["bucket_name", "creation_date", "region", "object_count", "size_bytes"]
    ∧ (instanceRecordToObj i).map Prod.fst =
      ["instance_id", "instance_type", "state", "public_ip", "private_ip",
       "availability_zone", "launch_time", "ami_id", "ami_name",
       "security_groups", "tags"]
    ∧ ((instanceRecordToObj i).find? (fun f => f.1 == "security_groups")).map Prod.snd
        = some (JVal.arr (i.security_groups.map jOptStr)) :=
  ⟨rfl, rfl, rfl⟩

end AwsInspector
